import Mathlib

/-!
Verification of the Gamus ingestion pipeline against its specification.

The Rust sources are shallowly embedded: pure fragments become Lean
functions, `f32`/`f64` arithmetic is modeled as exact rational arithmetic
(`ℚ`), machine integers as `ℕ`/`ℤ`, fallible calls as `Except`/`Option`,
and the effects of the surrounding I/O (decoder output, wall-clock time,
filesystem metadata, database defaults) are passed in as explicit inputs.
-/

namespace Gamus

/-! ## Rating (gamus-core/src/discography/rating.rs) -/

namespace Rating

/-- Scale factor for the 4-decimal fixed-point representation
(`Rating::SCALE_FACTOR`). -/
def SCALE_FACTOR : ℕ := 10000

/-- Maximum stored value, 5.0 scaled (`Rating::MAX_VALUE`). -/
def MAX_VALUE : ℕ := 5 * SCALE_FACTOR

/-- Embedding of `Rating::new`. The `f32` argument and arithmetic are
modeled as exact rationals: `(0.0..=5.0).contains(&value)` is the range
test, `f32::round` rounds half away from zero which on the nonnegative
values reached here is `⌊x + 1/2⌋`, and the `as u32` cast is the identity
on nonnegative integers. The constructed rating is the raw `u32` payload. -/
def new (value : ℚ) : Option ℕ :=
  if 0 ≤ value ∧ value ≤ 5 then
    let scaled : ℤ := ⌊value * (SCALE_FACTOR : ℚ) + 1 / 2⌋
    if scaled.toNat > MAX_VALUE then none else some scaled.toNat
  else
    none

/-- Embedding of `Rating::as_f32`: the stored integer divided by the scale
factor. -/
def as_f32 (r : ℕ) : ℚ := (r : ℚ) / (SCALE_FACTOR : ℚ)

end Rating


/-! ## Spectral analyzer (gamus-metadata/src/spectral_analyzer.rs)

The decoding / FFT front end (`compute_average_spectrum`) is I/O- and
DSP-bound; its output — the averaged dB spectrum and the stream's sample
rate — is taken as input here. All `f32` dB and frequency values are
modeled as exact rationals. The domain types `AnalysisOutcome`,
`AudioQuality`, `AudioQualityReport` and `QualityLevel` are imported by
the analyzer from `gamus_core::domain::release_track`; the snapshot of
that module predates them, so their shape is reconstructed from their
uses in `spectral_analyzer.rs` (constructor and field names match the
call sites exactly). -/

/-- Outcome of the cutoff heuristic (`AnalysisOutcome`). -/
inductive AnalysisOutcome where
  | CutoffDetected (freq ref_db cut_db : ℚ)
  | NoCutoffDetected (ref_db max_freq : ℚ)
  | Inconclusive (reason : String)
deriving DecidableEq

/-- User-facing quality levels (`QualityLevel`). -/
inductive QualityLevel where
  | Perfect
  | High
  | Medium
  | Low
  | Inconclusive
deriving DecidableEq

/-- Structured report (`AudioQualityReport`). -/
structure AudioQualityReport where
  level : QualityLevel
  score : ℚ
  label : String
  summary : String
  details : Option String
  cutoff_freq_hz : Option ℚ
  max_freq_hz : Option ℚ
deriving DecidableEq

/-- Quality result returned by the analyzer (`AudioQuality` as used in
`spectral_analyzer.rs`). -/
structure AudioQuality where
  outcome : AnalysisOutcome
  quality_score : ℚ
  assessment : String
  report : AudioQualityReport
deriving DecidableEq

/-- Analyzer configuration (`AnalysisConfig`). -/
structure AnalysisConfig where
  fft_window_size : ℕ
  max_analysis_duration_secs : ℚ
  reference_freq_start : ℚ
  reference_freq_end : ℚ
  check_freq_start : ℚ
  check_band_width : ℚ
  num_check_bands : ℕ
  significant_drop_db : ℚ
deriving DecidableEq

/-- The `Default` impl for `AnalysisConfig`. -/
def AnalysisConfig.default : AnalysisConfig :=
  { fft_window_size := 8192
    max_analysis_duration_secs := 10
    reference_freq_start := 14000
    reference_freq_end := 16000
    check_freq_start := 17000
    check_band_width := 1000
    num_check_bands := 6
    significant_drop_db := 18 }

/-- The closure `get_db` inside `detect_cutoff`: average dB over the bin
slice `[s_bin, e_bin)`. Rust's `as usize` cast of a nonnegative `f32`
truncates toward zero, i.e. takes the floor. -/
def get_db (spectrum_db : List ℚ) (bin_width : ℚ) (start stop : ℚ) : Option ℚ :=
  let s_bin : ℕ := (⌊start / bin_width⌋).toNat
  let e_bin : ℕ := min (⌊stop / bin_width⌋).toNat spectrum_db.length
  if s_bin ≥ e_bin then none
  else
    let slice := (spectrum_db.drop s_bin).take (e_bin - s_bin)
    some (slice.sum / ((e_bin - s_bin : ℕ) : ℚ))

/-- The `for i in 0..num_check_bands` scan inside `detect_cutoff`, with
`i` the current index and the second argument the number of iterations
left; `none` means the loop fell through without detecting a cutoff. -/
def scan_check_bands (cfg : AnalysisConfig) (spectrum_db : List ℚ) (bin_width nyquist ref_db : ℚ) :
    ℕ → ℕ → Option AnalysisOutcome
  | _, 0 => none
  | i, n + 1 =>
    let start := cfg.check_freq_start + (i : ℚ) * cfg.check_band_width
    if start ≥ nyquist then none
    else
      match get_db spectrum_db bin_width start (start + cfg.check_band_width) with
      | some band_db =>
        if ref_db - band_db > cfg.significant_drop_db then
          some (AnalysisOutcome.CutoffDetected start ref_db band_db)
        else
          scan_check_bands cfg spectrum_db bin_width nyquist ref_db (i + 1) n
      | none => scan_check_bands cfg spectrum_db bin_width nyquist ref_db (i + 1) n

/-- Body of `SpectralAnalyzer::detect_cutoff` with the source's two `let`
bindings (`bin_width`, `nyquist`) passed as explicit parameters. -/
def detect_cutoff_core (cfg : AnalysisConfig) (spectrum_db : List ℚ)
    (bin_width nyquist : ℚ) : AnalysisOutcome :=
  match get_db spectrum_db bin_width cfg.reference_freq_start cfg.reference_freq_end with
  | some v =>
    if v > -100 then
      match scan_check_bands cfg spectrum_db bin_width nyquist v 0 cfg.num_check_bands with
      | some outcome => outcome
      | none =>
        AnalysisOutcome.NoCutoffDetected v
          (cfg.check_freq_start + min ((cfg.num_check_bands : ℚ) * cfg.check_band_width) nyquist)
    else AnalysisOutcome.Inconclusive "Señal muy baja o rango de referencia inválido"
  | none => AnalysisOutcome.Inconclusive "Señal muy baja o rango de referencia inválido"

/-- Embedding of `SpectralAnalyzer::detect_cutoff`: `nyquist = SR / 2`,
`bin_width = nyquist / spectrum.len()`. -/
def detect_cutoff (cfg : AnalysisConfig) (spectrum_db : List ℚ) (sample_rate : ℕ) :
    AnalysisOutcome :=
  detect_cutoff_core cfg spectrum_db
    ((sample_rate : ℚ) / 2 / (spectrum_db.length : ℚ)) ((sample_rate : ℚ) / 2)

/-- Score table inside `score_outcome` for a detected cutoff frequency. -/
def cutoff_score (freq : ℚ) : ℚ :=
  if freq ≥ 21500 then 9.8
  else if freq ≥ 20000 then 9
  else if freq ≥ 19000 then 8
  else if freq ≥ 17000 then 7
  else if freq ≥ 16000 then 6
  else if freq ≥ 15000 then 5
  else 3

/-- Decimal rendering with one fractional digit, standing in for Rust's
one-decimal float formatting in the assessment and report strings (no
claim depends on the rendered text; rounding ties do not arise on the
values reached here). -/
def fmt_one_dec (q : ℚ) : String :=
  let n : ℤ := ⌊q * 10 + 1 / 2⌋
  let sign := if n < 0 then "-" else ""
  let m := n.natAbs
  sign ++ toString (m / 10) ++ "." ++ toString (m % 10)

/-- The `if score >= 9.5 ... else Low` ladder opening `build_report`. -/
def report_level (score : ℚ) : QualityLevel :=
  if score ≥ 9.5 then QualityLevel.Perfect
  else if score ≥ 8 then QualityLevel.High
  else if score ≥ 6 then QualityLevel.Medium
  else QualityLevel.Low

/-- Embedding of `SpectralAnalyzer::build_report`. -/
def build_report (cfg : AnalysisConfig) (outcome : AnalysisOutcome) (score : ℚ)
    (assessment : String) : AudioQualityReport :=
  match outcome with
  | AnalysisOutcome.CutoffDetected freq ref_db cut_db =>
    let drop_db := ref_db - cut_db
    { level := report_level score
      score := score
      label := assessment
      summary := "Se detectó un recorte en las frecuencias altas del audio."
      details := some ("La banda de referencia (~" ++ fmt_one_dec (cfg.reference_freq_start / 1000)
        ++ "–" ++ fmt_one_dec (cfg.reference_freq_end / 1000) ++ " kHz) está alrededor de "
        ++ fmt_one_dec ref_db ++ " dB. A partir de " ++ fmt_one_dec (freq / 1000)
        ++ " kHz el nivel cae a ≈ " ++ fmt_one_dec cut_db
        ++ " dB, con una caída aproximada de " ++ fmt_one_dec drop_db ++ " dB.")
      cutoff_freq_hz := some freq
      max_freq_hz := none }
  | AnalysisOutcome.NoCutoffDetected ref_db max_freq =>
    { level := report_level score
      score := score
      label := assessment
      summary := "No se detectó un recorte significativo en las frecuencias altas."
      details := some ("La banda de referencia (~" ++ fmt_one_dec (cfg.reference_freq_start / 1000)
        ++ "–" ++ fmt_one_dec (cfg.reference_freq_end / 1000) ++ " kHz) está alrededor de "
        ++ fmt_one_dec ref_db ++ " dB. No se observaron caídas mayores a "
        ++ fmt_one_dec cfg.significant_drop_db ++ " dB hasta aproximadamente "
        ++ fmt_one_dec (max_freq / 1000) ++ " kHz.")
      cutoff_freq_hz := none
      max_freq_hz := some max_freq }
  | AnalysisOutcome.Inconclusive reason =>
    { level := QualityLevel.Inconclusive
      score := score
      label := assessment
      summary := "No fue posible determinar la calidad espectral del audio con suficiente confianza."
      details := some reason
      cutoff_freq_hz := none
      max_freq_hz := none }

/-- Embedding of `SpectralAnalyzer::score_outcome`. -/
def score_outcome (cfg : AnalysisConfig) (outcome : AnalysisOutcome) : AudioQuality :=
  let p : ℚ × String :=
    match outcome with
    | AnalysisOutcome.CutoffDetected freq _ _ =>
      (cutoff_score freq, "Corte en " ++ fmt_one_dec (freq / 1000) ++ " kHz")
    | AnalysisOutcome.NoCutoffDetected _ _ => (10, "Espectro completo (full range)")
    | AnalysisOutcome.Inconclusive reason => (0, "Inconcluso: " ++ reason)
  { outcome := outcome
    quality_score := p.1
    assessment := p.2
    report := build_report cfg outcome p.1 p.2 }

/-- The scoring path of `SpectralAnalyzer::analyze_file` once the averaged
dB spectrum and sample rate are available: `detect_cutoff` then
`score_outcome`. The decoder's bitrate is passed alongside because the
spec's scoring section refers to it; faithfully to the code, it is never
read. -/
def analyze_spectrum (cfg : AnalysisConfig) (spectrum_db : List ℚ) (sample_rate : ℕ)
    (_bitrate_bps : Option ℕ) : AudioQuality :=
  score_outcome cfg (detect_cutoff cfg spectrum_db sample_rate)

/-! ## Device throughput (gamus-scanner/src/device.rs and fs_scanner.rs) -/

/-- Embedding of `measure_device_throughput`: the number of bytes the
read loop accumulated and the measured wall-clock duration are inputs;
the result is `read_total / 1_048_576 / secs` MB/s, and 0.0 when the
duration is zero (the code's division-by-zero guard). -/
def measure_device_throughput (read_total : ℕ) (secs : ℚ) : ℚ :=
  if secs = 0 then 0 else (read_total : ℚ) / 1048576 / secs

/-- The slow-path bandwidth assignment in `scan_groups_async`:
`sample_path.as_ref().and_then(|p| measure_device_throughput(p, ...).ok()).map(|bw| bw as u64)`.
The `as u64` cast of a nonnegative finite `f64` truncates toward zero.
`measured` is `none` when the group has no sample file, and otherwise the
probe's result for the first file. -/
def bench_bandwidth (measured : Option (Except String ℚ)) : Option ℕ :=
  measured.bind (fun r => r.toOption.map (fun bw => (⌊bw⌋).toNat))

/-- The `FsDevice` from fs_scanner.rs. -/
structure FsDevice where
  id : String
  bandwidth_mb_s : Option ℕ
deriving DecidableEq

/-- The device record built for a slow-path group in `scan_groups_async`. -/
def slow_path_device (dev_id : String) (measured : Option (Except String ℚ)) : FsDevice :=
  { id := dev_id, bandwidth_mb_s := bench_bandwidth measured }

/-! ## Domain entities (gamus-core)

Identifiers are 128-bit UUIDs in the source (`SongId(Uuid)` etc. in
`discography/ids.rs`), freshly minted via `new()`; only freshness and
equality matter to the claims, so they are modeled as naturals, rendered
with `toString` at the storage boundary. The snapshot's `domain/song.rs`
carries extra credit-id vectors that the probe and the store never
construct or read; the entities here carry exactly the fields the
claim-relevant code (`ffmpeg_extractor.rs`, `gamus-storage/src/lib.rs`)
constructs and persists. -/

abbrev ArtistId := ℕ

abbrev SongId := ℕ

abbrev ReleaseId := ℕ

abbrev ReleaseTrackId := ℕ

/-- The `Song` as constructed by the probe and persisted by the store. -/
structure Song where
  id : SongId
  title : String
  acoustid : Option String
deriving DecidableEq

/-- The `Artist` (discography/artist.rs). -/
structure Artist where
  id : ArtistId
  name : String
  variations : List String
  bio : Option String
  sites : List String
deriving DecidableEq

/-- The `Genre` (discography/genre_styles.rs). -/
inductive Genre where
  | Rock
  | Electronic
  | Pop
  | FolkWorldAndCountry
  | Jazz
  | FunkSoul
  | Classical
  | HipHop
  | Latin
  | StageAndScreen
  | Reggae
  | Blues
  | NonMusic
  | Childrens
  | BrassAndMilitary
deriving DecidableEq

/-- The `Style` (discography/genre_styles.rs). -/
inductive Style where
  | PopRock
  | House
  | Vocal
  | Experimental
  | Punk
  | AlternativeRock
  | SynthPop
  | Techno
  | IndieRock
  | Ambient
  | Soul
  | Disco
  | Hardcore
  | Folk
  | Ballad
  | Country
  | HardRock
  | Electro
  | RockAndRoll
  | Chanson
  | Romantic
  | Trance
  | HeavyMetal
  | PsychedelicRock
  | FolkRock
  | Jpop
  | Vocaloid
  | Custom (original : String)
deriving DecidableEq

/-- The `ReleaseType` (domain/release_type.rs). -/
inductive ReleaseType where
  | Album
  | EP
  | Single
  | Compilation
  | Mix
  | Custom (name : String)
deriving DecidableEq

/-- The `Artwork` (discography/release.rs). -/
structure Artwork where
  path : String
  mime_type : String
  description : Option String
  hash : String
  credits : Option String
deriving DecidableEq

/-- The `Release` (discography/release.rs). -/
structure Release where
  id : ReleaseId
  title : String
  release_type : List ReleaseType
  main_artist_ids : List ArtistId
  release_tracks : List ReleaseTrackId
  release_date : Option String
  artworks : List Artwork
  genres : List Genre
  styles : List Style
deriving DecidableEq

/-- The `AudioAnalysis` as constructed by the probe. -/
structure AudioAnalysis where
  quality : Option AudioQuality
  features : Option (List ℚ)
  bpm : Option ℚ
deriving DecidableEq

/-- The `AudioDetails` (domain/release_track.rs); `duration` in microseconds
(the probe builds it with `Duration::from_micros`, zero for unknown). -/
structure AudioDetails where
  duration : ℕ
  bitrate_kbps : Option ℕ
  sample_rate_hz : Option ℕ
  channels : Option ℕ
  analysis : Option AudioAnalysis
  fingerprint : Option String
deriving DecidableEq

/-- The `FileDetails` (domain/release_track.rs). -/
structure FileDetails where
  path : String
  size : ℕ
  modified : ℕ
deriving DecidableEq

/-- The `ReleaseTrack` as constructed by `build_release_track`; the
`artist_credits` vector is always empty there, its element type is
modeled by artist ids. -/
structure ReleaseTrack where
  id : ReleaseTrackId
  song_id : SongId
  release_id : ReleaseId
  track_number : ℕ
  disc_number : ℕ
  title_override : Option String
  artist_credits : List ArtistId
  audio_details : AudioDetails
  file_details : FileDetails
deriving DecidableEq

/-- The `ExtractedMetadata` (ports/metadata.rs). -/
structure ExtractedMetadata where
  song : Song
  release : Option Release
  track : Option ReleaseTrack
deriving DecidableEq

/-- The `MetadataError` (ports/metadata.rs); the `Io` variant is rendered
`IoError` here. -/
inductive MetadataError where
  | IoError (msg : String)
  | Unsupported (msg : String)
  | Corrupt (msg : String)
  | Missing (tag : String)
  | Internal (msg : String)
deriving DecidableEq

/-! ## Metadata probe (gamus-metadata: tag_keys.rs, ffmpeg_extractor.rs) -/

/-- The `KEYS_TITLE` from tag_keys.rs. -/
def KEYS_TITLE : List String := ["title", "tit2", "inam", "©nam", "name"]

/-- The `KEYS_ALBUM` from tag_keys.rs. -/
def KEYS_ALBUM : List String := ["album", "talb", "iprd", "©alb"]

/-- The `KEYS_DATE` from tag_keys.rs. -/
def KEYS_DATE : List String :=
  ["date", "year", "original_year", "originalyear", "releasedate", "tdrc", "tyer",
   "tdor", "©day", "icrd"]

/-- The `KEYS_GENRE` from tag_keys.rs. -/
def KEYS_GENRE : List String := ["genre", "tcon", "ignr", "©gen"]

/-- The `KEYS_TRACK_NUMBER` from tag_keys.rs. -/
def KEYS_TRACK_NUMBER : List String := ["track", "trck", "iprt", "itrk", "trkn"]

/-- The `KEYS_DISC_NUMBER` from tag_keys.rs. -/
def KEYS_DISC_NUMBER : List String := ["disc", "tpos", "disk"]

/-- The `find_tag_value`: first key that is present, its value trimmed; the
whole lookup yields nothing when that trimmed value is empty (Rust's
`.find_map(...).filter(|v| !v.is_empty())`). Tags are an association
list with lowercased keys. -/
def find_tag_value (tags : List (String × String)) (keys : List String) : Option String :=
  match keys.findSome? (fun key => (tags.lookup key).map String.trim) with
  | some v => if v ≠ "" then some v else none
  | none => none

/-- The `find_tag_number`: substring before `/`, trimmed and parsed as an
unsigned integer. (`String.toNat?` stands for `str::parse::<u32>`; the
claims do not depend on inputs where the two differ, such as a leading
`+`.) -/
def find_tag_number (tags : List (String × String)) (keys : List String) : Option ℕ :=
  (find_tag_value tags keys).bind (fun raw =>
    ((raw.splitOn "/").head?).bind (fun token => token.trim.toNat?))

/-- The `collect_normalized_tags`: lowercase every key. The source collects
into a `HashMap` (a later duplicate key wins); the association-list model
returns the first match, a difference no claim depends on. -/
def collect_normalized_tags (raw : List (String × String)) : List (String × String) :=
  raw.map (fun kv => (kv.1.toLower, kv.2))

/-- Normalization inside `Genre::from_str`: trim, lowercase, strip
`'-'`, `' '`, `','`, `'&'`, `'/'`. -/
def genre_normalize (s : String) : String :=
  String.mk (s.trim.toLower.data.filter (fun c =>
    !(c == '-' || c == ' ' || c == ',' || c == '&' || c == '/')))

/-- The `Genre::from_str` (fails on unknown strings). -/
def genre_from_str (s : String) : Option Genre :=
  match genre_normalize s with
  | "rock" => some Genre.Rock
  | "electronic" => some Genre.Electronic
  | "pop" => some Genre.Pop
  | "folkworldandcountry" => some Genre.FolkWorldAndCountry
  | "folkworldcountry" => some Genre.FolkWorldAndCountry
  | "jazz" => some Genre.Jazz
  | "funksoul" => some Genre.FunkSoul
  | "classical" => some Genre.Classical
  | "hiphop" => some Genre.HipHop
  | "latin" => some Genre.Latin
  | "stageandscreen" => some Genre.StageAndScreen
  | "stagescreen" => some Genre.StageAndScreen
  | "reggae" => some Genre.Reggae
  | "blues" => some Genre.Blues
  | "nonmusic" => some Genre.NonMusic
  | "childrens" => some Genre.Childrens
  | "children" => some Genre.Childrens
  | "brassandmilitary" => some Genre.BrassAndMilitary
  | "brassmilitary" => some Genre.BrassAndMilitary
  | _ => none

/-- Normalization inside `Style::from_str`: trim, lowercase, strip `'-'`
and `' '`. -/
def style_normalize (s : String) : String :=
  String.mk (s.trim.toLower.data.filter (fun c => !(c == '-' || c == ' ')))

/-- The `Style::from_str` (total: unknown strings become `Custom` holding the
original). -/
def style_from_str (s : String) : Style :=
  match style_normalize s with
  | "poprock" => Style.PopRock
  | "house" => Style.House
  | "vocal" => Style.Vocal
  | "experimental" => Style.Experimental
  | "punk" => Style.Punk
  | "alternativerock" => Style.AlternativeRock
  | "synthpop" => Style.SynthPop
  | "techno" => Style.Techno
  | "indierock" => Style.IndieRock
  | "ambient" => Style.Ambient
  | "soul" => Style.Soul
  | "disco" => Style.Disco
  | "hardcore" => Style.Hardcore
  | "folk" => Style.Folk
  | "ballad" => Style.Ballad
  | "country" => Style.Country
  | "hardrock" => Style.HardRock
  | "electro" => Style.Electro
  | "rock&roll" => Style.RockAndRoll
  | "rockandroll" => Style.RockAndRoll
  | "chanson" => Style.Chanson
  | "romantic" => Style.Romantic
  | "trance" => Style.Trance
  | "heavymetal" => Style.HeavyMetal
  | "psychedelicrock" => Style.PsychedelicRock
  | "folkrock" => Style.FolkRock
  | "jpop" => Style.Jpop
  | "vocaloid" => Style.Vocaloid
  | _ => Style.Custom s

/-- The `parse_genre_and_style`: a recognized genre wins, otherwise the (total)
style parse; absent raw genre yields empty lists. -/
def parse_genre_and_style (raw : Option String) :
    Except MetadataError (List Genre × List Style) :=
  match raw with
  | none => Except.ok ([], [])
  | some source =>
    match genre_from_str source with
    | some genre => Except.ok ([genre], [])
    | none => Except.ok ([], [style_from_str source])

/-- The `build_song`: canonical title with fallback to the file stem, then to
"Unknown Title"; a fresh song id; no acoustid. -/
def build_song (song_id : SongId) (file_stem : Option String)
    (tags : List (String × String)) : Song :=
  { id := song_id
    title :=
      match find_tag_value tags KEYS_TITLE with
      | some t => t
      | none =>
        match file_stem with
        | some stem => stem
        | none => "Unknown Title"
    acoustid := none }

/-- The `build_release`: album title with fallback "Unknown Album", free-form
date, parsed genre/style, the `Album` heuristic for the release type. -/
def build_release (release_id : ReleaseId) (tags : List (String × String)) :
    Except MetadataError Release :=
  match parse_genre_and_style (find_tag_value tags KEYS_GENRE) with
  | Except.error e => Except.error e
  | Except.ok gs =>
    Except.ok
      { id := release_id
        title := (find_tag_value tags KEYS_ALBUM).getD "Unknown Album"
        release_type := [ReleaseType.Album]
        main_artist_ids := []
        release_tracks := []
        release_date := find_tag_value tags KEYS_DATE
        artworks := []
        genres := gs.1
        styles := gs.2 }

/-- The `build_release_track`: fresh track id, the ids of the song and release
it was built from, track/disc numbers defaulting to 1. -/
def build_release_track (track_id : ReleaseTrackId) (song : Song) (release : Release)
    (tags : List (String × String)) (audio_details : AudioDetails)
    (file_details : FileDetails) : ReleaseTrack :=
  { id := track_id
    song_id := song.id
    release_id := release.id
    track_number := (find_tag_number tags KEYS_TRACK_NUMBER).getD 1
    disc_number := (find_tag_number tags KEYS_DISC_NUMBER).getD 1
    title_override := none
    artist_credits := []
    audio_details := audio_details
    file_details := file_details }

/-- The `extract_container_level_audio_info`: duration in microseconds when
positive (else zero = unknown), bit rate in kbps when positive. -/
def extract_container_level_audio_info (duration_micros bit_rate : ℤ) : ℕ × Option ℕ :=
  (if duration_micros > 0 then duration_micros.toNat else 0,
   if bit_rate > 0 then some ((bit_rate / 1000).toNat) else none)

/-- The `extract_stream_level_audio_info`: the best audio stream's decoder
rate and channel count, both absent when no stream decodes. -/
def extract_stream_level_audio_info (stream : Option (ℕ × ℕ)) : Option ℕ × Option ℕ :=
  match stream with
  | some rc => (some rc.1, some rc.2)
  | none => (none, none)

/-- The `run_spectral_analysis`: skipped without a configuration; an analyzer
failure is logged and swallowed — it never fails the probe. -/
def run_spectral_analysis (analysis_config : Option AnalysisConfig)
    (analyzer_result : Except String AudioQuality) :
    Except MetadataError (Option AudioQuality) :=
  match analysis_config with
  | none => Except.ok none
  | some _ =>
    match analyzer_result with
    | Except.ok q => Except.ok (some q)
    | Except.error _ => Except.ok none

/-- The external effects `extract_sync` consumes, passed as inputs: the
filesystem metadata (`build_file_details`), the container open
(`open_ffmpeg_input`), the container's raw tags and properties, the best
stream's decoded properties, the spectral analyzer's verdict, and the
three freshly minted ids. -/
structure ProbeEnv where
  file_details_res : Except MetadataError FileDetails
  open_res : Except MetadataError Unit
  raw_tags : List (String × String)
  file_stem : Option String
  container_duration_micros : ℤ
  container_bit_rate : ℤ
  stream_info : Option (ℕ × ℕ)
  analyzer_result : Except String AudioQuality
  song_id : SongId
  release_id : ReleaseId
  track_id : ReleaseTrackId

/-- Embedding of `extract_sync` (ffmpeg_extractor.rs). -/
def extract_sync (env : ProbeEnv) (analysis_config : Option AnalysisConfig) :
    Except MetadataError ExtractedMetadata :=
  match env.file_details_res with
  | Except.error e => Except.error e
  | Except.ok file_details =>
    match env.open_res with
    | Except.error e => Except.error e
    | Except.ok _ =>
      let tags := collect_normalized_tags env.raw_tags
      let song := build_song env.song_id env.file_stem tags
      match build_release env.release_id tags with
      | Except.error e => Except.error e
      | Except.ok release =>
        match run_spectral_analysis analysis_config env.analyzer_result with
        | Except.error e => Except.error e
        | Except.ok quality =>
          let ci := extract_container_level_audio_info
            env.container_duration_micros env.container_bit_rate
          let si := extract_stream_level_audio_info env.stream_info
          let audio_details : AudioDetails :=
            { duration := ci.1
              bitrate_kbps := ci.2
              sample_rate_hz := si.1
              channels := si.2
              analysis := some { quality := quality, features := none, bpm := none }
              fingerprint := none }
          let track := build_release_track env.track_id song release tags
            audio_details file_details
          Except.ok { song := song, release := some release, track := some track }

/-- Sample file details for concrete runs. -/
def file_details_example : FileDetails := { path := "/music/a.mp3", size := 10, modified := 0 }

/-- Sample probe environment: an untagged file, no decodable stream info,
analysis skipped. -/
def probe_env_example : ProbeEnv :=
  { file_details_res := Except.ok file_details_example
    open_res := Except.ok ()
    raw_tags := []
    file_stem := some "a"
    container_duration_micros := 0
    container_bit_rate := 0
    stream_info := none
    analyzer_result := Except.error "skipped"
    song_id := 1
    release_id := 2
    track_id := 3 }

/-- The song `extract_sync` produces on `probe_env_example`. -/
def song_example : Song := { id := 1, title := "a", acoustid := none }

/-- The release `extract_sync` produces on `probe_env_example`. -/
def release_example : Release :=
  { id := 2
    title := "Unknown Album"
    release_type := [ReleaseType.Album]
    main_artist_ids := []
    release_tracks := []
    release_date := none
    artworks := []
    genres := []
    styles := [] }

/-- The track `extract_sync` produces on `probe_env_example`. -/
def track_example : ReleaseTrack :=
  { id := 3
    song_id := 1
    release_id := 2
    track_number := 1
    disc_number := 1
    title_override := none
    artist_credits := []
    audio_details :=
      { duration := 0
        bitrate_kbps := none
        sample_rate_hz := none
        channels := none
        analysis := some { quality := none, features := none, bpm := none }
        fingerprint := none }
    file_details := file_details_example }

/-- The full extraction result on `probe_env_example`. -/
def extracted_example : ExtractedMetadata :=
  { song := song_example, release := some release_example, track := some track_example }

/-! ## Library service (gamus-core/src/services/library_service.rs) -/

/-- The `ScannedFile` (ports/scanner.rs). -/
structure ScannedFile where
  path : String
  size_bytes : ℕ
  modified_unix : ℕ
deriving DecidableEq

/-- The `ScanDevice` (ports/scanner.rs). -/
structure ScanDevice where
  id : String
  bandwidth_mb_s : Option ℕ
deriving DecidableEq

/-- The `ScanGroup` (ports/scanner.rs). -/
structure ScanGroup where
  device : ScanDevice
  files : List ScannedFile
deriving DecidableEq

/-- The `LibraryService::decide_concurrency`. -/
def decide_concurrency (mb_s_hint : Option ℕ) : ℕ :=
  match mb_s_hint with
  | some speed => if speed > 500 then 50 else if speed > 100 then 20 else 4
  | none => 8

/-- Store operations the orchestrator can issue through the `Library`
port. `saveTrack` exists so the spec's expected track persistence can be
expressed: the port declares no track-saving operation and `import_full`
issues none (the track write is a pending-work comment in the source). -/
inductive StoreOp where
  | saveSong (song : Song)
  | saveRelease (release : Release)
  | saveTrack (track : ReleaseTrack)
deriving DecidableEq

/-- The repository's failure behavior, as oracles: `none` means the save
succeeds, `some msg` the error it returns. -/
structure RepoBehavior where
  song_err : Song → Option String
  release_err : Release → Option String

/-- The per-file async block inside `import_full`: probe, then
`save_song`, then `save_release` when a release is present, each step
aborting the file (and only the file) on error. Returns the store
operations issued and the block's result (`Ok(path)` or
`Err((path, message))`). -/
def process_file (probe : ScannedFile → Except String ExtractedMetadata)
    (repo : RepoBehavior) (f : ScannedFile) :
    List StoreOp × Except (String × String) String :=
  match probe f with
  | Except.error e => ([], Except.error (f.path, "Metadata error: " ++ e))
  | Except.ok extracted =>
    match repo.song_err extracted.song with
    | some e =>
      ([StoreOp.saveSong extracted.song], Except.error (f.path, "Repo song error: " ++ e))
    | none =>
      match extracted.release with
      | some release =>
        match repo.release_err release with
        | some e =>
          ([StoreOp.saveSong extracted.song, StoreOp.saveRelease release],
           Except.error (f.path, "Repo release error: " ++ e))
        | none =>
          ([StoreOp.saveSong extracted.song, StoreOp.saveRelease release], Except.ok f.path)
      | none => ([StoreOp.saveSong extracted.song], Except.ok f.path)

/-- Store operations the amended C1 claim expects for one successfully
probed file: the song, then — when the song save succeeded and a release
is present — the release, and never a track. -/
def expected_ops (repo : RepoBehavior) (em : ExtractedMetadata) : List StoreOp :=
  StoreOp.saveSong em.song ::
    (match repo.song_err em.song, em.release with
     | none, some release => [StoreOp.saveRelease release]
     | _, _ => [])

/-- The four reporter events (ports/progress.rs). -/
inductive ProgressEvent where
  | start (total : ℕ)
  | success (path : String)
  | error (path msg : String)
  | finish
deriving DecidableEq

/-- The reporter event `import_full` emits for one completed file. -/
def file_event (probe : ScannedFile → Except String ExtractedMetadata)
    (repo : RepoBehavior) (f : ScannedFile) : ProgressEvent :=
  match (process_file probe repo f).2 with
  | Except.ok path => ProgressEvent.success path
  | Except.error pe => ProgressEvent.error pe.1 pe.2

/-- The `total_files`: the grand total passed to `start`. -/
def total_files (groups : List ScanGroup) : ℕ :=
  (groups.map (fun g => g.files.length)).sum

/-- The per-file events of an import in scan order (groups strictly
sequential, files in order within each group). `buffer_unordered` may
deliver each group's results in any completion order, so theorems about
the trace quantify over permutations of this list. -/
def import_middle (probe : ScannedFile → Except String ExtractedMetadata)
    (repo : RepoBehavior) (groups : List ScanGroup) : List ProgressEvent :=
  groups.flatMap (fun g => g.files.map (file_event probe repo))

/-- Embedding of `import_full`'s observable behavior: a scan error
returns the error with no events at all; otherwise `start(total)`, one
event per file, and `finish`, with `Ok(())` as the command's result. -/
def import_full (scan_res : Except String (List ScanGroup))
    (probe : ScannedFile → Except String ExtractedMetadata) (repo : RepoBehavior) :
    List ProgressEvent × Except String Unit :=
  match scan_res with
  | Except.error e => ([], Except.error e)
  | Except.ok groups =>
    (ProgressEvent.start (total_files groups) ::
        import_middle probe repo groups ++ [ProgressEvent.finish],
     Except.ok ())

/-- Sample files and oracles for concrete import runs. -/
def file_example : ScannedFile := { path := "/music/a.mp3", size_bytes := 10, modified_unix := 0 }

/-- A second sample file, whose probe fails. -/
def file_example2 : ScannedFile := { path := "/music/b.mp3", size_bytes := 5, modified_unix := 0 }

/-- A probe that succeeds on everything. -/
def probe_example : ScannedFile → Except String ExtractedMetadata :=
  fun _ => Except.ok extracted_example

/-- A probe that fails on the second sample file only. -/
def probe_partial : ScannedFile → Except String ExtractedMetadata :=
  fun f => if f.path = "/music/b.mp3" then Except.error "boom" else Except.ok extracted_example

/-- A repository whose saves always succeed. -/
def repo_example : RepoBehavior := { song_err := fun _ => none, release_err := fun _ => none }

/-- One single-device group holding both sample files. -/
def groups_example : List ScanGroup :=
  [{ device := { id := "1", bandwidth_mb_s := some 450 }, files := [file_example, file_example2] }]

/-- The two per-file events of importing `groups_example` through
`probe_partial`, in an order other than scan order (as `buffer_unordered`
may deliver them). -/
def mid_example : List ProgressEvent :=
  [ProgressEvent.error "/music/b.mp3" "Metadata error: boom",
   ProgressEvent.success "/music/a.mp3"]

/-! ## Library store (gamus-storage/src/lib.rs)

Each save is a single-row upsert: `INSERT ... ON CONFLICT(id) DO UPDATE
SET <mutable columns>`. A table is a list of rows whose primary key `id`
is unique in any reachable state; the upsert updates every row matching
the key, which coincides with SQLite's behavior on such states. The
`now` argument stands for the database defaults that fill `created_at`
and `updated_at` on a fresh insert; the conflict path touches only the
designated mutable columns. -/

/-- A row of `artists` (models.rs `ArtistRow`). -/
structure ArtistRow where
  id : String
  name : String
  bio : Option String
  created_at : String
  updated_at : String
deriving DecidableEq

/-- A row of `songs` (models.rs `SongRow`). -/
structure SongRow where
  id : String
  title : String
  acoustid : Option String
  created_at : String
  updated_at : String
deriving DecidableEq

/-- A row of `releases` (models.rs `ReleaseRow`). -/
structure ReleaseRow where
  id : String
  title : String
  release_date : Option String
  created_at : String
  updated_at : String
deriving DecidableEq

/-- Generic single-row upsert by key: update the matching row's mutable
columns if the key is present, else append the freshly built row. -/
def upsert {ρ : Type} (key : ρ → String) (k : String) (u : ρ → ρ) (fresh : ρ)
    (table : List ρ) : List ρ :=
  if ∃ row ∈ table, key row = k then
    table.map (fun r => if key r = k then u r else r)
  else
    table ++ [fresh]

/-- The `LibraryStore::save_artist`: upsert by id, mutating `name` and `bio`. -/
def save_artist (now : String) (table : List ArtistRow) (artist : Artist) : List ArtistRow :=
  upsert (fun r => r.id) (toString artist.id)
    (fun r => { r with name := artist.name, bio := artist.bio })
    { id := toString artist.id, name := artist.name, bio := artist.bio,
      created_at := now, updated_at := now } table

/-- The `LibraryStore::save_song`: upsert by id, mutating `title` and
`acoustid`. -/
def save_song (now : String) (table : List SongRow) (song : Song) : List SongRow :=
  upsert (fun r => r.id) (toString song.id)
    (fun r => { r with title := song.title, acoustid := song.acoustid })
    { id := toString song.id, title := song.title, acoustid := song.acoustid,
      created_at := now, updated_at := now } table

/-- The `LibraryStore::save_release`: upsert by id, mutating `title` and
`release_date`. -/
def save_release (now : String) (table : List ReleaseRow) (release : Release) : List ReleaseRow :=
  upsert (fun r => r.id) (toString release.id)
    (fun r => { r with title := release.title, release_date := release.release_date })
    { id := toString release.id, title := release.title, release_date := release.release_date,
      created_at := now, updated_at := now } table

/-! ## Claim-side models for the spectral analyzer

Definitions in this block follow the words of the specification (or of an
amended claim) rather than the source; each is compared against the
source-derived functions above. -/

/-- Bins of the spectrum whose center frequency `i · bin_width` lies in
`[lo, hi]` (used by the claimed reverse scan). -/
def bins_in_band (spectrum_db : List ℚ) (bin_width lo hi : ℚ) : List ℚ :=
  (List.range spectrum_db.length).filterMap (fun (i : ℕ) =>
    if lo ≤ (i : ℚ) * bin_width ∧ (i : ℚ) * bin_width ≤ hi then
      some (spectrum_db.getD i 0)
    else none)

/-- Mean dB over the bins whose center frequency lies in `[lo, hi]`;
`none` when the band holds no bin. -/
def band_mean (spectrum_db : List ℚ) (bin_width lo hi : ℚ) : Option ℚ :=
  if (bins_in_band spectrum_db bin_width lo hi).length ≠ 0 then
    some ((bins_in_band spectrum_db bin_width lo hi).sum /
      (((bins_in_band spectrum_db bin_width lo hi).length : ℕ) : ℚ))
  else none

/-- Downward walk of the claimed reverse scan: band indices kmax, …, 1;
the band for index k is `[k·s − s, k·s]`; returns the first band (from the
top) whose mean dB exceeds the floor, together with that mean. -/
def reverse_scan (spectrum_db : List ℚ) (bin_width s floor_db : ℚ) (kmax : ℕ) :
    Option (ℚ × ℚ) :=
  ((List.range kmax).map (fun j => kmax - j)).findSome? (fun (k : ℕ) =>
    match band_mean spectrum_db bin_width ((k : ℚ) * s - s) ((k : ℚ) * s) with
    | some m => if m > floor_db then some (((k : ℚ) * s), m) else none
    | none => none)

/-- Reverse-scan cutoff detection as the spec describes it (§4.3, with the
spec's defaults: `base_floor_db = −65`, `dynamic_margin_db = 70`,
`band_width_hz = 1000` so the step is `s = max(1000, 100)`,
`margin_from_nyquist_hz = 1500`): the global maximum of the spectrum
fixes the dynamic floor `max(−65, global_max − 70)`, bands `[f−s, f]` are
walked downward from `f = ⌊N/s⌋·s`, the first band whose mean dB exceeds
the floor fixes `found` and `ref_db`, and the outcome is `Inconclusive`
when no band exceeds the floor; a `found` further than the Nyquist margin
from `N` is a cutoff (with `cut_db` the floor), otherwise
`NoCutoffDetected` with `max_freq = found`. -/
def detect_cutoff_claimed (spectrum_db : List ℚ) (sample_rate : ℕ) : AnalysisOutcome :=
  match spectrum_db with
  | [] => AnalysisOutcome.Inconclusive "no high-frequency energy"
  | h :: t =>
    match reverse_scan (h :: t) ((sample_rate : ℚ) / 2 / (((h :: t).length : ℕ) : ℚ))
        (max 1000 100) (max (-65) (t.foldl max h - 70))
        ((⌊(sample_rate : ℚ) / 2 / max 1000 100⌋).toNat) with
    | none => AnalysisOutcome.Inconclusive "no high-frequency energy"
    | some (f, ref_db) =>
      if (sample_rate : ℚ) / 2 - f > 1500 then
        AnalysisOutcome.CutoffDetected f ref_db (max (-65) (t.foldl max h - 70))
      else AnalysisOutcome.NoCutoffDetected ref_db f

/-- Band start frequencies enumerated by the check-band scan. -/
def band_starts (cfg : AnalysisConfig) : List ℚ :=
  (List.range cfg.num_check_bands).map
    (fun (i : ℕ) => cfg.check_freq_start + (i : ℚ) * cfg.check_band_width)

/-- Longest prefix of frequencies strictly below the Nyquist frequency
(the scan breaks at the first start that reaches it). -/
def while_below (nyquist : ℚ) : List ℚ → List ℚ
  | [] => []
  | st :: rest => if st < nyquist then st :: while_below nyquist rest else []

/-- Amended description of the source's cutoff detection: mean dB of the
fixed reference band, `Inconclusive` when it is missing or at most
−100 dB; otherwise the first check band (walked upward, stopping at
Nyquist) whose mean lies more than `significant_drop_db` below the
reference yields a cutoff at the band's start; otherwise no cutoff, with
`max_freq = check_freq_start + min(num_check_bands · width, Nyquist)`. -/
def detect_cutoff_described_core (cfg : AnalysisConfig) (spectrum_db : List ℚ)
    (bin_width nyquist : ℚ) : AnalysisOutcome :=
  match get_db spectrum_db bin_width cfg.reference_freq_start cfg.reference_freq_end with
  | some ref_db =>
    if ref_db > -100 then
      match (while_below nyquist (band_starts cfg)).findSome? (fun st =>
          match get_db spectrum_db bin_width st (st + cfg.check_band_width) with
          | some band_db =>
            if ref_db - band_db > cfg.significant_drop_db then
              some (AnalysisOutcome.CutoffDetected st ref_db band_db)
            else none
          | none => none) with
      | some o => o
      | none =>
        AnalysisOutcome.NoCutoffDetected ref_db
          (cfg.check_freq_start + min ((cfg.num_check_bands : ℚ) * cfg.check_band_width) nyquist)
    else AnalysisOutcome.Inconclusive "Señal muy baja o rango de referencia inválido"
  | none => AnalysisOutcome.Inconclusive "Señal muy baja o rango de referencia inválido"

/-- The described detection at the code's `bin_width` and `nyquist`. -/
def detect_cutoff_described (cfg : AnalysisConfig) (spectrum_db : List ℚ)
    (sample_rate : ℕ) : AnalysisOutcome :=
  detect_cutoff_described_core cfg spectrum_db
    ((sample_rate : ℚ) / 2 / (spectrum_db.length : ℚ)) ((sample_rate : ℚ) / 2)

/-- First score in a high→low `(freq_hz, score)` table whose threshold is
at most the given frequency. -/
def first_band_score : List (ℚ × ℚ) → ℚ → Option ℚ
  | [], _ => none
  | p :: rest, freq => if p.1 ≤ freq then some p.2 else first_band_score rest freq

/-- The `cutoff_bands` table exactly as the claim lists it. -/
def claimed_cutoff_bands : List (ℚ × ℚ) :=
  [(21000, 10), (20000, 9.5), (18000, 8), (16500, 7), (15000, 6), (13000, 4.5), (11500, 2)]

/-- Score the claim assigns to an outcome: the claimed cutoff table with
fallback 4.0, the claimed full-band scores (≥21k → 10, ≥20k → 9.5,
else 9), and 0 on `Inconclusive`. -/
def claimed_score (o : AnalysisOutcome) : ℚ :=
  match o with
  | AnalysisOutcome.CutoffDetected freq _ _ =>
    (first_band_score claimed_cutoff_bands freq).getD 4
  | AnalysisOutcome.NoCutoffDetected _ max_freq =>
    if max_freq ≥ 21000 then 10 else if max_freq ≥ 20000 then 9.5 else 9
  | AnalysisOutcome.Inconclusive _ => 0

/-- The scoring table the source actually uses, as a high→low table. -/
def actual_cutoff_bands : List (ℚ × ℚ) :=
  [(21500, 9.8), (20000, 9), (19000, 8), (17000, 7), (16000, 6), (15000, 5)]

/-- Amended scoring claim: detected cutoffs are scored by the first entry
of `actual_cutoff_bands` whose threshold is at most the frequency, with
fallback 3.0; `NoCutoffDetected` always scores 10.0 (regardless of
`max_freq`); `Inconclusive` scores 0. -/
def actual_score (o : AnalysisOutcome) : ℚ :=
  match o with
  | AnalysisOutcome.CutoffDetected freq _ _ =>
    (first_band_score actual_cutoff_bands freq).getD 3
  | AnalysisOutcome.NoCutoffDetected _ _ => 10
  | AnalysisOutcome.Inconclusive _ => 0

/-- Bitrate safety caps exactly as the claim lists them (thresholds in
bits per second). -/
def claimed_bitrate_cap (bps : ℕ) : Option ℚ :=
  if bps < 80000 then some 3
  else if bps < 128000 then some (5.5 : ℚ)
  else if bps < 192000 then some (7.5 : ℚ)
  else if bps < 256000 then some (8.5 : ℚ)
  else if bps < 400000 then some 9
  else none

/-- Quality level the claim assigns: `Inconclusive` outcomes force the
`Inconclusive` level, otherwise ≥9.5 Perfect, ≥8 High, ≥5.5 Medium,
else Low. -/
def claimed_level (outcome : AnalysisOutcome) (score : ℚ) : QualityLevel :=
  match outcome with
  | AnalysisOutcome.Inconclusive _ => QualityLevel.Inconclusive
  | _ =>
    if score ≥ 9.5 then QualityLevel.Perfect
    else if score ≥ 8 then QualityLevel.High
    else if score ≥ (5.5 : ℚ) then QualityLevel.Medium
    else QualityLevel.Low

/-! ## Theorems -/

/-- C9: `Rating::new(v)` succeeds exactly on `v ∈ [0.0, 5.0]`; every
constructed rating is at most 50000; and `as_f32` recovers `v` to within
the 4-decimal fixed-point precision (the proved bound `1/20000` is half of
`10^-4`). -/
theorem C9_rating (v : ℚ) :
    ((Rating.new v).isSome ↔ (0 ≤ v ∧ v ≤ 5)) ∧
    (∀ r : ℕ, Rating.new v = some r →
      r ≤ 50000 ∧ |Rating.as_f32 r - v| ≤ 1 / 20000) := by
  by_cases hv : 0 ≤ v ∧ v ≤ 5
  · have hnn : (0 : ℤ) ≤ ⌊v * (10000 : ℚ) + 1 / 2⌋ :=
      Int.floor_nonneg.mpr (by nlinarith [hv.1])
    have hub : ⌊v * (10000 : ℚ) + 1 / 2⌋ ≤ 50000 := by
      have hlt : v * (10000 : ℚ) + 1 / 2 < ((50001 : ℤ) : ℚ) := by
        push_cast
        nlinarith [hv.2]
      have := Int.floor_lt.mpr hlt
      omega
    have hnew : Rating.new v = some (⌊v * (10000 : ℚ) + 1 / 2⌋).toNat := by
      simp only [Rating.new, Rating.SCALE_FACTOR, Rating.MAX_VALUE, Nat.cast_ofNat, if_pos hv]
      rw [if_neg (by omega)]
    refine ⟨by simp [hnew, hv], ?_⟩
    intro r hr
    rw [hnew] at hr
    have hreq : r = (⌊v * (10000 : ℚ) + 1 / 2⌋).toNat := (Option.some_inj.mp hr).symm
    subst hreq
    refine ⟨by omega, ?_⟩
    have hcast : (((⌊v * (10000 : ℚ) + 1 / 2⌋).toNat : ℕ) : ℚ) =
        ((⌊v * (10000 : ℚ) + 1 / 2⌋ : ℤ) : ℚ) := by
      exact_mod_cast Int.toNat_of_nonneg hnn
    have hfl := Int.floor_le (v * (10000 : ℚ) + 1 / 2)
    have hfu := Int.lt_floor_add_one (v * (10000 : ℚ) + 1 / 2)
    simp only [Rating.as_f32, Rating.SCALE_FACTOR, Nat.cast_ofNat]
    rw [hcast]
    have hsplit : ((⌊v * (10000 : ℚ) + 1 / 2⌋ : ℤ) : ℚ) / (10000 : ℚ) - v =
        (((⌊v * (10000 : ℚ) + 1 / 2⌋ : ℤ) : ℚ) - v * 10000) / 10000 := by
      ring
    rw [hsplit, abs_div, abs_of_pos (by norm_num : (0 : ℚ) < 10000),
      div_le_iff₀ (by norm_num : (0 : ℚ) < 10000)]
    rw [abs_le]
    constructor <;> [linarith; linarith]
  · have hnew : Rating.new v = none := by
      simp only [Rating.new, if_neg hv]
    refine ⟨by simp [hnew, hv], ?_⟩
    intro r hr
    rw [hnew] at hr
    exact absurd hr (by simp)

/-- Witness for C9 at the concrete rating 3.5: the constructed payload is
35000, within bounds and within precision. -/
theorem C9_rating_witness :
    35000 ≤ 50000 ∧ |Rating.as_f32 35000 - (7 / 2 : ℚ)| ≤ 1 / 20000 :=
  (C9_rating (7 / 2)).2 35000 (by
    have hfl : (⌊(7 / 2 : ℚ) * (10000 : ℚ) + 1 / 2⌋ : ℤ) = 35000 := by
      rw [Int.floor_eq_iff]
      norm_num
    simp only [Rating.new, Rating.SCALE_FACTOR, Rating.MAX_VALUE, Nat.cast_ofNat]
    rw [if_pos (by norm_num), hfl]
    norm_num
    decide)

/-- Helper: the check-band loop of `detect_cutoff` equals a first-match
search over the explicit list of band starts, cut off at Nyquist. -/
lemma scan_check_bands_eq_findSome (cfg : AnalysisConfig) (spectrum_db : List ℚ)
    (bin_width nyquist ref_db : ℚ) :
    ∀ n i : ℕ,
      scan_check_bands cfg spectrum_db bin_width nyquist ref_db i n =
        (while_below nyquist ((List.range n).map
            (fun j => cfg.check_freq_start + ((i + j : ℕ) : ℚ) * cfg.check_band_width))).findSome?
          (fun st =>
            match get_db spectrum_db bin_width st (st + cfg.check_band_width) with
            | some band_db =>
              if ref_db - band_db > cfg.significant_drop_db then
                some (AnalysisOutcome.CutoffDetected st ref_db band_db)
              else none
            | none => none) := by
  intro n
  induction n with
  | zero =>
    intro i
    simp [scan_check_bands, while_below]
  | succ n ih =>
    intro i
    rw [List.range_succ_eq_map, List.map_cons, List.map_map]
    have hcomp : (List.range n).map
          ((fun j => cfg.check_freq_start + ((i + j : ℕ) : ℚ) * cfg.check_band_width) ∘ Nat.succ) =
        (List.range n).map
          (fun j => cfg.check_freq_start + (((i + 1) + j : ℕ) : ℚ) * cfg.check_band_width) := by
      apply List.map_congr_left
      intro a _
      simp only [Function.comp_apply]
      have h' : i + Nat.succ a = i + 1 + a := by omega
      rw [h']
    rw [hcomp]
    simp only [scan_check_bands, Nat.add_zero]
    by_cases hlt : cfg.check_freq_start + (i : ℚ) * cfg.check_band_width < nyquist
    · rw [while_below, if_pos hlt, List.findSome?_cons]
      rw [if_neg (not_le.mpr hlt)]
      cases hg : get_db spectrum_db bin_width
          (cfg.check_freq_start + (i : ℚ) * cfg.check_band_width)
          (cfg.check_freq_start + (i : ℚ) * cfg.check_band_width + cfg.check_band_width) with
      | none => simpa using ih (i + 1)
      | some band_db =>
        by_cases hd : ref_db - band_db > cfg.significant_drop_db
        · simp [hd]
        · simpa [hd] using ih (i + 1)
    · rw [while_below, if_neg hlt]
      rw [if_pos (not_lt.mp hlt)]
      simp

/-- C2 (amended): `detect_cutoff` performs exactly the described scan —
the mean dB of the fixed reference band (absent or ≤ −100 dB ⇒
`Inconclusive`), then the first check band, walked upward below Nyquist,
whose mean lies more than `significant_drop_db` below it (⇒
`CutoffDetected` at the band start), else `NoCutoffDetected` with
`max_freq = check_freq_start + min(num_check_bands · width, Nyquist)`. -/
theorem C2_detect_description (cfg : AnalysisConfig) (spectrum_db : List ℚ)
    (sample_rate : ℕ) :
    detect_cutoff cfg spectrum_db sample_rate =
      detect_cutoff_described cfg spectrum_db sample_rate := by
  unfold detect_cutoff detect_cutoff_described
  generalize ((sample_rate : ℚ) / 2 / (spectrum_db.length : ℚ)) = bin_width
  generalize ((sample_rate : ℚ) / 2) = nyquist
  unfold detect_cutoff_core detect_cutoff_described_core
  cases hg : get_db spectrum_db bin_width cfg.reference_freq_start cfg.reference_freq_end with
  | none => rfl
  | some v =>
    simp only []
    by_cases hv : v > -100
    · rw [if_pos hv, if_pos hv]
      have hmap : (List.range cfg.num_check_bands).map
            (fun j => cfg.check_freq_start + ((0 + j : ℕ) : ℚ) * cfg.check_band_width) =
          band_starts cfg := by
        unfold band_starts
        apply List.map_congr_left
        intro a _
        norm_num
      rw [scan_check_bands_eq_findSome cfg spectrum_db bin_width nyquist v
        cfg.num_check_bands 0, hmap]
    · rw [if_neg hv, if_neg hv]

/-- C2 counterexample: on the flat 4-bin spectrum of a 16 kHz-rate stream
(Nyquist 8 kHz), the claimed reverse scan finds the top energetic band
(7 kHz, within the Nyquist margin, hence `NoCutoffDetected`), while the
code returns `Inconclusive` because its fixed 14–16 kHz reference band
lies beyond Nyquist. -/
theorem C2_counterexample :
    detect_cutoff AnalysisConfig.default [0, 0, 0, 0] 16000 ≠
      detect_cutoff_claimed [0, 0, 0, 0] 16000 := by
  have hcode : detect_cutoff AnalysisConfig.default ([0, 0, 0, 0] : List ℚ) 16000 =
      AnalysisOutcome.Inconclusive "Señal muy baja o rango de referencia inválido" := by
    norm_num [detect_cutoff, detect_cutoff_core, get_db, AnalysisConfig.default]
  have hks : (List.range 8).map (fun j => 8 - j) = [8, 7, 6, 5, 4, 3, 2, 1] := rfl
  have hrange4 : List.range 4 = [0, 1, 2, 3] := rfl
  have hfold : ([0, 0, 0] : List ℚ).foldl max 0 = 0 := by
    simp [List.foldl]
  have hfloor : max (-65 : ℚ) (([0, 0, 0] : List ℚ).foldl max 0 - 70) = -65 := by
    rw [hfold]
    norm_num
  have hstep : max (1000 : ℚ) 100 = 1000 := by norm_num
  have hkmax : (⌊(16000 : ℚ) / 2 / (1000 : ℚ)⌋).toNat = 8 := by
    rw [show (16000 : ℚ) / 2 / (1000 : ℚ) = (8 : ℚ) by norm_num]
    rw [show ⌊(8 : ℚ)⌋ = (8 : ℤ) by norm_num]
    decide
  have hclaim : detect_cutoff_claimed ([0, 0, 0, 0] : List ℚ) 16000 =
      AnalysisOutcome.NoCutoffDetected 0 7000 := by
    simp only [detect_cutoff_claimed, hfloor, hstep, Nat.cast_ofNat]
    rw [hkmax]
    norm_num [reverse_scan, hks, band_mean, bins_in_band, hrange4,
      List.findSome?, List.filterMap, List.getD]
  rw [hcode, hclaim]
  simp

/-- Helper: the source's cutoff score ladder equals the first matching
entry of the high→low table `actual_cutoff_bands` with fallback 3. -/
lemma cutoff_score_eq_table (freq : ℚ) :
    cutoff_score freq = (first_band_score actual_cutoff_bands freq).getD 3 := by
  simp only [cutoff_score, actual_cutoff_bands, first_band_score, ge_iff_le]
  split_ifs <;> simp

/-- C3 counterexample: on `CutoffDetected` at exactly 21000 Hz, the code
scores 9.0 (its `≥ 20000` arm) while the claimed table's first matching
entry `21000 → 10.0` gives 10.0. -/
theorem C3_counterexample :
    (score_outcome AnalysisConfig.default
        (AnalysisOutcome.CutoffDetected 21000 0 (-77))).quality_score ≠
      claimed_score (AnalysisOutcome.CutoffDetected 21000 0 (-77)) := by
  simp only [score_outcome, cutoff_score, claimed_score, claimed_cutoff_bands,
    first_band_score, ge_iff_le]
  norm_num

/-- C3 (amended): the score of `CutoffDetected{freq}` is the first score
in the table 21500→9.8, 20000→9.0, 19000→8.0, 17000→7.0, 16000→6.0,
15000→5.0 whose frequency is ≤ freq, else the fallback 3.0; the score of
`NoCutoffDetected` is always 10.0; `Inconclusive` scores 0. -/
theorem C3_score_table (cfg : AnalysisConfig) (o : AnalysisOutcome) :
    (score_outcome cfg o).quality_score = actual_score o := by
  cases o with
  | CutoffDetected freq ref_db cut_db =>
    simpa only [score_outcome, actual_score] using cutoff_score_eq_table freq
  | NoCutoffDetected ref_db max_freq => rfl
  | Inconclusive reason => rfl

/-- C4 counterexample: a full-band spectrum (18 flat bins at 0 dB,
36 kHz sample rate) yields `NoCutoffDetected` and final score 10.0 even
when the known bitrate is 64 kbps, whose claimed cap is 3.0 — no bitrate
cap is applied by the code. -/
theorem C4_counterexample :
    claimed_bitrate_cap 64000 = some 3 ∧
    ¬ ((analyze_spectrum AnalysisConfig.default (List.replicate 18 (0 : ℚ)) 36000
        (some 64000)).quality_score ≤ 3) := by
  constructor
  · simp [claimed_bitrate_cap]
  · have hdet : detect_cutoff AnalysisConfig.default (List.replicate 18 (0 : ℚ)) 36000 =
        AnalysisOutcome.NoCutoffDetected 0 23000 := by
      norm_num [detect_cutoff, detect_cutoff_core, get_db, scan_check_bands,
        AnalysisConfig.default, List.length_replicate, List.drop_replicate,
        List.take_replicate, List.sum_replicate, min_def, Int.reduceToNat]
    simp only [analyze_spectrum, hdet, score_outcome]
    norm_num

/-- C4 (amended): the analyzer applies no bitrate cap at all — the final
score is a function of the spectrum alone, so any two bitrates give the
same result and in particular a lower bitrate never yields a higher final
score. -/
theorem C4_bitrate_independent (cfg : AnalysisConfig) (spectrum_db : List ℚ)
    (sample_rate : ℕ) (b b' : Option ℕ) :
    analyze_spectrum cfg spectrum_db sample_rate b =
      analyze_spectrum cfg spectrum_db sample_rate b' ∧
    (analyze_spectrum cfg spectrum_db sample_rate b).quality_score ≤
      (analyze_spectrum cfg spectrum_db sample_rate b').quality_score :=
  ⟨rfl, le_refl _⟩

/-- Helper: on scores outside the gap `[5.5, 6)` — which no outcome ever
produces — the source's level ladder (Medium at ≥ 6) agrees with the
claimed ladder (Medium at ≥ 5.5). -/
lemma report_level_eq_claimed (s : ℚ) (h : s < (5.5 : ℚ) ∨ 6 ≤ s) :
    report_level s =
      (if s ≥ 9.5 then QualityLevel.Perfect
       else if s ≥ 8 then QualityLevel.High
       else if s ≥ (5.5 : ℚ) then QualityLevel.Medium
       else QualityLevel.Low) := by
  unfold report_level
  split_ifs <;> first
    | rfl
    | (exfalso; rcases h with h | h <;> linarith)

/-- C7: for every report the analyzer builds, the quality level matches
the claim's ladder (≥9.5 Perfect, ≥8 High, ≥5.5 Medium, else Low), with
`Inconclusive` outcomes forced to the `Inconclusive` level. The code's
Medium threshold is 6.0, but no reachable score lies in `[5.5, 6)`. -/
theorem C7_quality_level (cfg : AnalysisConfig) (o : AnalysisOutcome) :
    (score_outcome cfg o).report.level =
      claimed_level o (score_outcome cfg o).quality_score := by
  cases o with
  | CutoffDetected freq ref_db cut_db =>
    have hgap : cutoff_score freq < (5.5 : ℚ) ∨ 6 ≤ cutoff_score freq := by
      unfold cutoff_score
      split_ifs <;> norm_num
    simp only [score_outcome, build_report, claimed_level]
    exact report_level_eq_claimed _ hgap
  | NoCutoffDetected ref_db max_freq =>
    simp only [score_outcome, build_report, claimed_level]
    exact report_level_eq_claimed _ (Or.inr (by norm_num))
  | Inconclusive reason =>
    simp only [score_outcome, build_report, claimed_level]

/-- C5 counterexample: a zero-duration probe measures 0.0 MB/s, but the
resulting device carries `bandwidth_mb_s = some 0` (0.0 cast to `u64`),
not `none` as the claim states. -/
theorem C5_counterexample :
    measure_device_throughput 20971520 0 = 0 ∧
    (slow_path_device "1"
        (some (Except.ok (measure_device_throughput 20971520 0)))).bandwidth_mb_s ≠ none := by
  constructor
  · simp [measure_device_throughput]
  · simp [slow_path_device, bench_bandwidth, measure_device_throughput, Except.toOption]

/-- C5 (amended): whenever the throughput probe completes in zero measured
wall time, the measured throughput is 0.0 and the resulting device has
`bandwidth_mb_s = some 0`. -/
theorem C5_zero_duration (read_total : ℕ) (dev_id : String) :
    measure_device_throughput read_total 0 = 0 ∧
    (slow_path_device dev_id
        (some (Except.ok (measure_device_throughput read_total 0)))).bandwidth_mb_s = some 0 := by
  constructor <;>
    simp [measure_device_throughput, slow_path_device, bench_bandwidth, Except.toOption]

/-- C10: whenever `extract_sync` succeeds, the returned metadata always
carries `release = Some` and `track = Some`, and the track's `song_id`
and `release_id` are exactly the ids of the returned song and release. -/
theorem C10_probe_shape (env : ProbeEnv) (cfg : Option AnalysisConfig)
    (em : ExtractedMetadata) (h : extract_sync env cfg = Except.ok em) :
    em.release.isSome ∧ em.track.isSome ∧
    em.track.map ReleaseTrack.song_id = some em.song.id ∧
    em.track.map ReleaseTrack.release_id = em.release.map Release.id := by
  unfold extract_sync at h
  cases hfd : env.file_details_res with
  | error e => rw [hfd] at h; simp at h
  | ok fd =>
    rw [hfd] at h
    cases hor : env.open_res with
    | error e => rw [hor] at h; simp at h
    | ok u =>
      rw [hor] at h
      simp only [] at h
      cases hbr : build_release env.release_id (collect_normalized_tags env.raw_tags) with
      | error e => rw [hbr] at h; simp at h
      | ok release =>
        rw [hbr] at h
        cases hsa : run_spectral_analysis cfg env.analyzer_result with
        | error e => rw [hsa] at h; simp at h
        | ok quality =>
          rw [hsa] at h
          simp only [] at h
          injection h with h
          subst h
          exact ⟨rfl, rfl, rfl, rfl⟩

/-- Witness for C10 on the concrete probe run `probe_env_example`. -/
theorem C10_probe_shape_witness :
    extracted_example.release.isSome ∧ extracted_example.track.isSome ∧
    extracted_example.track.map ReleaseTrack.song_id = some extracted_example.song.id ∧
    extracted_example.track.map ReleaseTrack.release_id =
      extracted_example.release.map Release.id :=
  C10_probe_shape probe_env_example none extracted_example rfl

/-- C1 counterexample: on a file whose probe succeeds with a present
release-track, `import_full`'s per-file pipeline issues only the song and
release saves — the track returned by the probe is never saved. -/
theorem C1_counterexample :
    probe_example file_example = Except.ok extracted_example ∧
    extracted_example.track = some track_example ∧
    (process_file probe_example repo_example file_example).1 =
      [StoreOp.saveSong song_example, StoreOp.saveRelease release_example] ∧
    StoreOp.saveTrack track_example ∉
      (process_file probe_example repo_example file_example).1 := by
  refine ⟨rfl, rfl, rfl, ?_⟩
  have hops : (process_file probe_example repo_example file_example).1 =
      [StoreOp.saveSong song_example, StoreOp.saveRelease release_example] := rfl
  rw [hops]
  simp

/-- C1 (amended): for every successfully probed file, the pipeline
persists the song first and then — when the song save succeeded and a
release is present — the release; no release-track save is ever issued,
whatever the probe returned. -/
theorem C1_track_never_saved (probe : ScannedFile → Except String ExtractedMetadata)
    (repo : RepoBehavior) (f : ScannedFile) :
    (∀ em, probe f = Except.ok em →
      (process_file probe repo f).1 = expected_ops repo em) ∧
    (∀ t : ReleaseTrack, StoreOp.saveTrack t ∉ (process_file probe repo f).1) := by
  constructor
  · intro em hem
    simp only [process_file, expected_ops, hem]
    cases hs : repo.song_err em.song with
    | some e => simp [hs]
    | none =>
      cases hrel : em.release with
      | none => simp [hs, hrel]
      | some release =>
        cases hre : repo.release_err release <;> simp [hs, hrel, hre]
  · intro t
    simp only [process_file]
    cases hp : probe f with
    | error e => simp
    | ok em =>
      cases hs : repo.song_err em.song with
      | some e => simp [hs]
      | none =>
        cases hrel : em.release with
        | none => simp [hs, hrel]
        | some release => cases hre : repo.release_err release <;> simp [hs, hrel, hre]

/-- Witness for the amended C1 on the concrete run. -/
theorem C1_track_never_saved_witness :
    (process_file probe_example repo_example file_example).1 =
      expected_ops repo_example extracted_example ∧
    StoreOp.saveTrack track_example ∉
      (process_file probe_example repo_example file_example).1 :=
  ⟨(C1_track_never_saved probe_example repo_example file_example).1 extracted_example rfl,
   (C1_track_never_saved probe_example repo_example file_example).2 track_example⟩

/-- C6: when the scan succeeds with groups totalling N files, the emitted
trace is `start(N)`, then one progress event per file — `success` or
`error`, never both, a failure never blocking the rest — and `finish`
last; this holds for every completion order (any permutation `mid` of the
per-file events). -/
theorem C6_progress_protocol (scan_res : Except String (List ScanGroup))
    (probe : ScannedFile → Except String ExtractedMetadata) (repo : RepoBehavior)
    (groups : List ScanGroup) (mid : List ProgressEvent)
    (hscan : scan_res = Except.ok groups)
    (hperm : List.Perm mid (import_middle probe repo groups)) :
    (import_full scan_res probe repo).1 =
      ProgressEvent.start (total_files groups) ::
        import_middle probe repo groups ++ [ProgressEvent.finish] ∧
    mid.length = total_files groups ∧
    (∀ e ∈ mid, (∃ p, e = ProgressEvent.success p) ∨
      (∃ p m, e = ProgressEvent.error p m)) ∧
    List.Perm mid ((groups.flatMap (fun g => g.files)).map (file_event probe repo)) ∧
    (ProgressEvent.start (total_files groups) :: mid ++ [ProgressEvent.finish]).head? =
      some (ProgressEvent.start (total_files groups)) ∧
    (ProgressEvent.start (total_files groups) :: mid ++ [ProgressEvent.finish]).getLast? =
      some ProgressEvent.finish := by
  subst hscan
  refine ⟨rfl, ?_, ?_, ?_, rfl, ?_⟩
  · rw [hperm.length_eq]
    simp only [import_middle, total_files, List.length_flatMap]
    congr 1
    apply List.map_congr_left
    intro g _
    simp [List.length_map]
  · intro e he
    have hmem : e ∈ import_middle probe repo groups := hperm.mem_iff.mp he
    simp only [import_middle, List.mem_flatMap, List.mem_map] at hmem
    obtain ⟨g, hg, f, hf, rfl⟩ := hmem
    cases hpr : (process_file probe repo f).2 with
    | ok p => exact Or.inl ⟨p, by simp [file_event, hpr]⟩
    | error pe => exact Or.inr ⟨pe.1, pe.2, by simp [file_event, hpr]⟩
  · have hflat : import_middle probe repo groups =
        (groups.flatMap (fun g => g.files)).map (file_event probe repo) :=
      (List.map_flatMap _ _ _).symm
    exact hflat ▸ hperm
  · show ((ProgressEvent.start (total_files groups) :: mid) ++
        [ProgressEvent.finish]).getLast? = some ProgressEvent.finish
    rw [List.getLast?_concat]

/-- Witness for C6 on the concrete two-file import with one failing file
and a completion order different from scan order. -/
theorem C6_progress_protocol_witness :
    (import_full (Except.ok groups_example) probe_partial repo_example).1 =
      ProgressEvent.start (total_files groups_example) ::
        import_middle probe_partial repo_example groups_example ++ [ProgressEvent.finish] ∧
    mid_example.length = total_files groups_example ∧
    (∀ e ∈ mid_example, (∃ p, e = ProgressEvent.success p) ∨
      (∃ p m, e = ProgressEvent.error p m)) ∧
    List.Perm mid_example
      ((groups_example.flatMap (fun g => g.files)).map (file_event probe_partial repo_example)) ∧
    (ProgressEvent.start (total_files groups_example) :: mid_example ++
        [ProgressEvent.finish]).head? =
      some (ProgressEvent.start (total_files groups_example)) ∧
    (ProgressEvent.start (total_files groups_example) :: mid_example ++
        [ProgressEvent.finish]).getLast? =
      some ProgressEvent.finish :=
  C6_progress_protocol (Except.ok groups_example) probe_partial repo_example groups_example
    mid_example rfl
    (by
      rw [show import_middle probe_partial repo_example groups_example =
          [ProgressEvent.success "/music/a.mp3",
           ProgressEvent.error "/music/b.mp3" "Metadata error: boom"] from rfl]
      exact List.Perm.swap _ _ _)

/-- Helper: upserting the same entity twice equals upserting it once.
The second call's fresh row is irrelevant because after the first call
the key is present, so the second call only re-applies the (idempotent)
column update. -/
lemma upsert_idem {ρ : Type} (key : ρ → String) (k : String) (u : ρ → ρ)
    (fresh fresh2 : ρ) (table : List ρ)
    (hkeyu : ∀ r, key (u r) = key r) (huu : ∀ r, u (u r) = u r)
    (hufresh : u fresh = fresh) (hkfresh : key fresh = k) :
    upsert key k u fresh2 (upsert key k u fresh table) = upsert key k u fresh table := by
  unfold upsert
  by_cases h : ∃ row ∈ table, key row = k
  · rw [if_pos h]
    have h2 : ∃ row ∈ table.map (fun r => if key r = k then u r else r), key row = k := by
      obtain ⟨r, hr, hk⟩ := h
      refine ⟨if key r = k then u r else r, List.mem_map_of_mem _ hr, ?_⟩
      rw [if_pos hk, hkeyu r, hk]
    rw [if_pos h2, List.map_map]
    apply List.map_congr_left
    intro r _
    simp only [Function.comp_apply]
    by_cases hk : key r = k
    · rw [if_pos hk, if_pos (by rw [hkeyu r]; exact hk), huu r]
    · rw [if_neg hk, if_neg hk]
  · rw [if_neg h]
    have h2 : ∃ row ∈ table ++ [fresh], key row = k := ⟨fresh, by simp, hkfresh⟩
    rw [if_pos h2, List.map_append]
    push_neg at h
    have htab : table.map (fun r => if key r = k then u r else r) = table := by
      conv_rhs => rw [← List.map_id table]
      apply List.map_congr_left
      intro r hr
      rw [if_neg (h r hr)]
      rfl
    have hfr : ([fresh].map (fun r => if key r = k then u r else r)) = [fresh] := by
      simp only [List.map_cons, List.map_nil]
      rw [if_pos hkfresh, hufresh]
    rw [htab, hfr]

/-- C8: `save(x); save(x)` leaves each of the three tables exactly as a
single `save(x)` does — the repeated upsert changes neither the row count
nor any row's content, for artists, songs and releases alike. -/
theorem C8_upsert_idempotent (now now2 : String) (artists : List ArtistRow)
    (songs : List SongRow) (releases : List ReleaseRow)
    (a : Artist) (s : Song) (r : Release) :
    save_artist now2 (save_artist now artists a) a = save_artist now artists a ∧
    save_song now2 (save_song now songs s) s = save_song now songs s ∧
    save_release now2 (save_release now releases r) r = save_release now releases r := by
  refine ⟨?_, ?_, ?_⟩
  · exact upsert_idem _ _ _ _ _ _ (fun _ => rfl) (fun _ => rfl) rfl rfl
  · exact upsert_idem _ _ _ _ _ _ (fun _ => rfl) (fun _ => rfl) rfl rfl
  · exact upsert_idem _ _ _ _ _ _ (fun _ => rfl) (fun _ => rfl) rfl rfl

end Gamus
